import Mathlib

/-!
Shallow embedding of the mission controller of the `ros_robottle` repository
(`src/robottle/robottle/controller1.py`), together with theorems checking the
natural-language specification against it.

Modelling conventions:
* The mutable attributes of the `Controller1` node are gathered in the `Ctrl`
  structure; every handler becomes a function from `Ctrl` (plus the message
  payload) to `Ctrl`, or to `Except (PyErr × Ctrl) Ctrl` when the Python code
  can raise (the carried `Ctrl` is the state at the moment of the raise, so
  commands already published before the exception are visible).
* Messages published on the four outbound topics (`uart_commands`,
  `detectnet/camera_control`, `slam_control`, `video_source/flip_topic`) are
  appended to the `out : List Cmd` buffer.
* Collaborator functions from the `robottle_utils` package (which is not part
  of this repository: `angle_diff`, `get_rotation_time`, the map / vision /
  lidar utilities and the RRT* planner) are taken as explicit oracle
  parameters: the embedding records exactly which value the source feeds to
  them and how it uses their results.
* `rclpy` single-shot timers are modelled by an id / duration bookkeeping:
  `create_timer` appends a fresh id, `destroy_timer` removes the stored
  handle; fields mirror `self.rotation_timer` and
  `self.wait_for_detectnet_timer`.
* Angles, durations and distances are `ℚ` (Python floats, no rounding issues
  are relevant to the claims); status codes are `Int`.
-/

namespace Robottle

/-- Planar point (grid coordinates). -/
abbrev Point : Type := ℚ × ℚ

/-- A zone descriptor: the corner points of one zone. -/
abbrev Zone : Type := List Point

/-- One accumulated detection tuple
`(center-x, center-y, size-x, size-y, flipped-flag)` (source line 328). -/
abbrev Det5 : Type := ℚ × ℚ × ℚ × ℚ × Bool

/-- Mission states (string constants of controller1.py lines 17-25). -/
inductive MState
  | initialRotation   -- INITIAL_ROTATION_MODE
  | travel            -- TRAVEL_MODE
  | randomSearch      -- RANDOM_SEARCH_MODE
  | bottlePicking     -- BOTTLE_PICKING_MODE
  | bottleRelease     -- BOTTLE_RELEASE_MODE
  | bottleReaching    -- BOTTLE_REACHING_MODE
  | kickAss           -- KICK_ASS_MODE
  | recoverySlam      -- RECOVERY_SLAM
  | recoveryRotation  -- RECOVERY_ROTATION
deriving DecidableEq

/-- Rotation-timer purpose tags (string constants "0".."7", lines 27-34). -/
inductive TimerState
  | off                  -- TIMER_STATE_OFF = "0"
  | onTravelMode         -- TIMER_STATE_ON_TRAVEL_MODE = "1"
  | onRSBottleAlignment  -- TIMER_STATE_ON_RANDOM_SEARCH_BOTTLE_ALIGNMENT = "2"
  | onRSDeltaRotation    -- TIMER_STATE_ON_RANDOM_SEARCH_DELTA_ROTATION = "3"
  | onBottleRelease      -- TIMER_STATE_ON_BOTTLE_RELEASE = "4"
  | onNoRotation         -- TIMER_STATE_ON_NO_ROTATION = "5"
  | onKickAssMode        -- TIMER_STATE_ON_KICK_ASS_MODE = "6"
  | onTravelModeEnd      -- TIMER_STATE_ON_TRAVEL_MODE_END = "7"
deriving DecidableEq

/-- Detector activation flag (DETECTNET_ON / DETECTNET_OFF, lines 36-37). -/
inductive DetState
  | ON
  | OFF
deriving DecidableEq

/-- One outbound message, tagged with its topic. -/
inductive Cmd
  | uart (data : String)       -- uart_commands
  | cam (data : String)        -- detectnet/camera_control
  | slam_ctrl (data : String)  -- slam_control
  | flip (data : String)       -- video_source/flip_topic
deriving DecidableEq

/-- Python exceptions that the embedded code can raise. -/
inductive PyErr
  | runtimeError  -- raise RuntimeError (line 520)
  | indexError    -- out-of-range list indexing
  | valueError    -- numpy: cannot delete array elements (del path[-1], line 637)
  | typeError     -- len() of an unsized (0-d) numpy array
deriving DecidableEq

/-- The value held in `self.path`.  The source stores either a numpy array
(line 120 and line 552, from `np.array(rrt.planning(...))`), a 0-d numpy
array when the planner returned `None`, or a plain Python list (line 597).
No assignment ever stores Python `None` in `self.path`, so the
`self.path is None` test of line 577 is modelled as vacuous. -/
inductive PathVal
  | npArr (pts : List Point)  -- numpy array of waypoints
  | np0d                      -- 0-d numpy array: np.array(None)
  | pyList (pts : List Point) -- Python list
deriving DecidableEq

/-! ### Hyperparameters (controller1.py lines 42-63) -/

def AREA_THRESHOLD : ℚ := 110000

def MIN_DIST_TO_GOAL : ℚ := 25

def MIN_DIST_TO_RECYCLING : ℚ := 12

def MIN_DIST_TO_POINT : ℚ := 2/10

def CONTROLLER_TIME_CONSTANT : Int := 30

def MIN_ANGLE_DIFF : ℚ := 15

def TARGETS_TO_VISIT : List Nat := [3, 1, 0, 2, 4, 0, 5, 6, 0]

def DELTA_RANDOM_SEARCH : ℚ := 40

def TIME_FOR_VISION_DETECTION : ℚ := 11/10

def MAX_BOTTLE_PICKED : Nat := 5

def N_RANDOM_SEARCH_MAX : Nat := 11

/-- Mission memory of the `Controller1` node: one field per mutable attribute
touched by the embedded handlers, initialised to the values of `__init__`
(lines 106-134), plus the timer / output bookkeeping described above. -/
structure Ctrl where
  x : ℚ := 0
  y : ℚ := 0
  theta : ℚ := 0
  initial_zones_found : Bool := false
  zones : List Zone := []
  path : PathVal := .npArr []
  targets : List Point := []
  goal : Option Point := none
  robot_pos : Option Point := none
  current_target_index : Nat := 0
  n_random_search : Nat := 0
  bottles_picked : Nat := 0
  state : MState := .initialRotation
  rotation_timer_state : TimerState := .off
  is_traveling_forward : Bool := false
  has_to_find_new_path : Bool := false
  is_flipped : Bool := false
  detectnet_state : DetState := .OFF
  detections : List Det5 := []
  rotation_index : Nat := 0
  -- set by start_rotation_timer / rotation_timer_callback before first read
  last_theta : ℚ := 0
  rotation_asked : ℚ := 0
  last_state : MState := .initialRotation
  -- whether "--travel" is in sys.argv (read by lidar_callback, line 198)
  args_travel : Bool := false
  -- timer bookkeeping
  nextTimerId : Nat := 0
  rotation_timer : Option Nat := none
  rotation_timer_period : ℚ := 0
  liveRot : List (Nat × ℚ) := []  -- live rotation timers (id, period)
  wait_for_detectnet_timer : Option Nat := none
  liveDet : List (Nat × ℚ) := []  -- live detection-dwell timers (id, period)
  out : List Cmd := []
deriving DecidableEq

/-- The controller state right after `__init__` (debug flags off). -/
def ctrl0 : Ctrl := {}

/-! ### Publication and timer helpers -/

def publishUart (data : String) (s : Ctrl) : Ctrl :=
  { s with out := s.out ++ [Cmd.uart data] }

def publishCam (data : String) (s : Ctrl) : Ctrl :=
  { s with out := s.out ++ [Cmd.cam data] }

def publishSlam (data : String) (s : Ctrl) : Ctrl :=
  { s with out := s.out ++ [Cmd.slam_ctrl data] }

def publishFlip (data : String) (s : Ctrl) : Ctrl :=
  { s with out := s.out ++ [Cmd.flip data] }

/-- `self.destroy_timer(self.rotation_timer)`. -/
def destroy_rotation_timer (s : Ctrl) : Ctrl :=
  { s with liveRot := s.liveRot.filter (fun p => !(some p.1 == s.rotation_timer)) }

/-- `self.rotation_timer = self.create_timer(d, self.rotation_timer_callback)`. -/
def create_rotation_timer (d : ℚ) (s : Ctrl) : Ctrl :=
  { s with rotation_timer := some s.nextTimerId,
           rotation_timer_period := d,
           liveRot := s.liveRot ++ [(s.nextTimerId, d)],
           nextTimerId := s.nextTimerId + 1 }

/-- `self.destroy_timer(self.wait_for_detectnet_timer)`. -/
def destroy_detectnet_timer (s : Ctrl) : Ctrl :=
  { s with liveDet := s.liveDet.filter (fun p => !(some p.1 == s.wait_for_detectnet_timer)) }

/-- `self.wait_for_detectnet_timer = self.create_timer(d, self.detection_timer_callback)`. -/
def create_detectnet_timer (d : ℚ) (s : Ctrl) : Ctrl :=
  { s with wait_for_detectnet_timer := some s.nextTimerId,
           liveDet := s.liveDet ++ [(s.nextTimerId, d)],
           nextTimerId := s.nextTimerId + 1 }

/-! ### State machine methods (controller1.py lines 439-701) -/

/-- `set_detectnet_state` (lines 439-444). -/
def set_detectnet_state (new_state : DetState) (s : Ctrl) : Ctrl :=
  let s := { s with detectnet_state := new_state }
  let s := if new_state = .ON then publishCam "create" s else s
  if new_state = .OFF then publishCam "destroy" s else s

/-- `start_travel_mode` (lines 646-649). -/
def start_travel_mode (s : Ctrl) : Ctrl :=
  { publishUart "m1" s with has_to_find_new_path := true, state := .travel }

/-- `start_bottle_reaching_mode` (lines 640-644). -/
def start_bottle_reaching_mode (s : Ctrl) : Ctrl :=
  publishUart "y" { s with state := .bottleReaching }

/-- `start_rotation_timer(angle, state)` (lines 672-701).  `grt` is the
collaborator `controller_utils.get_rotation_time`.  Note that the branch of
line 681 tests `self.rotation_timer_state`, i.e. the tag of the PREVIOUS
rotation request, which has not yet been overwritten by the `state`
argument (that only happens at line 698). -/
def start_rotation_timer (grt : ℚ → ℚ) (angle : ℚ) (tag : TimerState) (s : Ctrl) : Ctrl :=
  -- 1. if required, delete previous timer (line 677)
  let s1 := if s.rotation_timer_state ≠ .off then destroy_rotation_timer s else s
  -- 2./3. pick the timer period and possibly send the turn command (681-692)
  let s2 :=
    if s1.rotation_timer_state = .onNoRotation then
      create_rotation_timer angle s1
    else
      create_rotation_timer (grt |angle|)
        (publishUart (if 0 < angle then "d" else "a") s1)
  -- 4. record the request (lines 698-701)
  { s2 with rotation_timer_state := tag,
            last_theta := s2.theta,
            rotation_asked := angle,
            rotation_index := s2.rotation_index + 1 }

/-- `start_random_search_detection` (lines 446-471). -/
def start_random_search_detection (s : Ctrl) : Ctrl :=
  let s := { s with state := .randomSearch, n_random_search := s.n_random_search + 1 }
  -- ending criterion (line 454)
  if s.n_random_search = N_RANDOM_SEARCH_MAX ∨ s.bottles_picked = MAX_BOTTLE_PICKED then
    start_travel_mode (set_detectnet_state .OFF s)
  else
    let s := publishUart "xm2" s
    let s := set_detectnet_state .ON s
    let s := { s with detections := [] }
    create_detectnet_timer TIME_FOR_VISION_DETECTION s

/-- `take_bottle_decision` (lines 357-373).  `best_angle` is the oracle for
`vision_utils.get_angle_of_detection(vision_utils.get_best_detections(...))`. -/
def take_bottle_decision (grt : ℚ → ℚ) (best_angle : ℚ) (s : Ctrl) : Ctrl :=
  let s := set_detectnet_state .OFF s
  if s.detections ≠ [] then
    start_rotation_timer grt best_angle .onRSBottleAlignment s
  else
    start_rotation_timer grt DELTA_RANDOM_SEARCH .onRSDeltaRotation s

/-- `flip_camera_and_reset_detectnet_timer` (lines 342-355). -/
def flip_camera_and_reset_detectnet_timer (grt : ℚ → ℚ) (best_angle : ℚ) (s : Ctrl) : Ctrl :=
  let s := publishFlip (if s.is_flipped then "normal" else "flip") s
  let s := destroy_detectnet_timer s
  let s := { s with is_flipped := !s.is_flipped }
  if s.is_flipped then
    create_detectnet_timer TIME_FOR_VISION_DETECTION s
  else
    take_bottle_decision grt best_angle s

/-- `detection_timer_callback` (lines 335-340). -/
def detection_timer_callback (grt : ℚ → ℚ) (best_angle : ℚ) (s : Ctrl) : Ctrl :=
  flip_camera_and_reset_detectnet_timer grt best_angle s

/-- `rotation_timer_callback` (lines 375-435).  `ad` is the collaborator
`controller_utils.angle_diff`. -/
def rotation_timer_callback (ad : ℚ → ℚ → ℚ) (s : Ctrl) : Ctrl :=
  let s := destroy_rotation_timer s
  -- verify that rotation actually happened (lines 384-394)
  if 39 < |s.rotation_asked| ∧ |ad s.last_theta s.theta| < 5 then
    { publishUart "W" s with last_state := s.state, state := .recoveryRotation }
  else
    match s.rotation_timer_state with
    | .onRSBottleAlignment =>
        start_bottle_reaching_mode { s with rotation_timer_state := .off }
    | .onRSDeltaRotation =>
        start_random_search_detection (publishUart "x" { s with rotation_timer_state := .off })
    | .onTravelMode =>
        publishUart "w" { s with rotation_timer_state := .off }
    | .onBottleRelease =>
        publishUart "w" (publishUart "m2"
          { s with rotation_timer_state := .off, is_traveling_forward := true })
    | .onNoRotation => s
    | .onKickAssMode =>
        publishUart "Y" { s with rotation_timer_state := .off }
    | .onTravelModeEnd =>
        start_random_search_detection { s with rotation_timer_state := .off }
    | .off => s

/-! ### Inbound-event handlers (controller1.py lines 185-333) -/

/-- `listener_arduino_status` (lines 228-308).  `grt` is
`controller_utils.get_rotation_time`, needed by the RECOVERY_ROTATION
re-issue of line 282.  The KICK_ASS branch with status 4 indexes
`TARGETS_TO_VISIT[self.current_target_index]` (line 299), which can raise. -/
def listener_arduino_status (grt : ℚ → ℚ) (status : Int) (s : Ctrl) :
    Except (PyErr × Ctrl) Ctrl :=
  if s.state = .initialRotation then
    if status = 1 then .ok (start_travel_mode s) else .ok s
  else if s.state = .bottleReaching then
    if status = 0 then .ok (start_random_search_detection s)
    else if status = 1 then .ok (publishUart "p" { s with state := .bottlePicking })
    else .ok s
  else if s.state = .bottlePicking then
    if status = 0 then .ok (start_random_search_detection s)
    else if status = 1 then
      .ok (start_random_search_detection { s with bottles_picked := s.bottles_picked + 1 })
    else .ok s
  else if s.state = .bottleRelease then
    if status = 1 then
      .ok (start_travel_mode { s with bottles_picked := 0, n_random_search := 0 })
    else .ok s
  else if s.state = .recoverySlam then
    if status = 1 then .ok (start_travel_mode (publishSlam "recover_state" s))
    else .ok s
  else if s.state = .recoveryRotation then
    if status = 1 then
      -- restore the stashed state and re-issue the recorded rotation (276-282)
      .ok (start_rotation_timer grt s.rotation_asked s.rotation_timer_state
            { s with state := s.last_state })
    else .ok s
  else if s.state = .kickAss then
    -- the source checks status 1, 3 and 4 with three separate ifs (284-308)
    let s1 := if status = 1 then publishUart "c" (publishSlam "freeze" s) else s
    let s2 := if status = 3 then publishSlam "unfreeze" s1 else s1
    if status = 4 then
      match TARGETS_TO_VISIT.get? s2.current_target_index with
      | none => .error (.indexError, s2)
      | some dest =>
          if dest = 0 then .ok (start_travel_mode s2)
          else
            .ok (start_random_search_detection
                  { s2 with n_random_search := N_RANDOM_SEARCH_MAX - 10,
                            bottles_picked := MAX_BOTTLE_PICKED - 3 })
    else .ok s2
  else .ok s

/-- The oracle inputs of one `lidar_callback` invocation: the results of the
three differently parameterised `lidar_utils.check_obstacle_ahead` calls
(lines 205, 213, 220) and `controller_utils.get_rotation_time`. -/
structure LidarExt where
  obstacle_low15 : Bool   -- check_obstacle_ahead(..., threshold_low = 15)
  obstacle_len350 : Bool  -- check_obstacle_ahead(..., length_to_check = 350)
  obstacle_len700 : Bool  -- check_obstacle_ahead(..., length_to_check = 700)
  get_rotation_time : ℚ → ℚ

/-- `lidar_callback` (lines 197-225).  Under the `--travel` debug argument the
handler first returns early when no grid position has been computed yet
(line 199; `self.zones` is never `None` and `self.theta` is never `None`, so
only `self.robot_pos is None` can fire); otherwise the
`is_obstacle_a_rock` result of line 201 is computed but never used. -/
def lidar_callback (ext : LidarExt) (s : Ctrl) : Ctrl :=
  if s.args_travel ∧ s.robot_pos = none then s
  else if s.state = .bottleReaching then
    if ext.obstacle_low15 then
      start_rotation_timer ext.get_rotation_time DELTA_RANDOM_SEARCH
        .onRSDeltaRotation (publishUart "x" s)
    else s
  else if s.state = .travel ∧ s.is_traveling_forward then
    if ext.obstacle_len350 then
      { publishUart "x" s with has_to_find_new_path := true }
    else s
  else if s.state = .bottleRelease ∧ s.is_traveling_forward then
    if ext.obstacle_len700 then
      publishUart "q" (publishUart "x" { s with is_traveling_forward := false })
    else s
  else s

/-- Dimensions of `msg.detections[i].source_img`. -/
structure SourceImg where
  height : Nat
  width : Nat
deriving DecidableEq

/-- One element of a `Detection2DArray` message. -/
structure Detection2D where
  source_img : SourceImg
  cx : ℚ  -- d.bbox.center.x
  cy : ℚ  -- d.bbox.center.y
  sx : ℚ  -- d.bbox.size_x
  sy : ℚ  -- d.bbox.size_y
deriving DecidableEq

/-- A `Detection2DArray` message. -/
structure DetMsg where
  detections : List Detection2D
deriving DecidableEq

/-- `listener_callback_detectnet` (lines 312-333).  Line 321 reads
`msg.detections[0]` before anything checks that the list is non-empty, so an
empty detection list raises IndexError when the detector is enabled. -/
def listener_callback_detectnet (grt : ℚ → ℚ) (best_angle : ℚ) (msg : DetMsg)
    (s : Ctrl) : Except (PyErr × Ctrl) Ctrl :=
  if s.detectnet_state = .OFF then .ok s
  else
    match msg.detections with
    | [] => .error (.indexError, s)
    | d0 :: _ =>
        let is_actually_flipped : Bool := d0.source_img.height < d0.source_img.width
        if is_actually_flipped ≠ s.is_flipped then .ok s
        else
          let new_detections := msg.detections.map
            (fun d => (d.cx, d.cy, d.sx, d.sy, s.is_flipped))
          .ok (flip_camera_and_reset_detectnet_timer grt best_angle
                { s with detections := s.detections ++ new_detections })

/-! ### Travel mode (controller1.py lines 473-638) -/

/-- `len(self.path)`: raises TypeError on a 0-d numpy array. -/
def pathLen : PathVal → Except PyErr Nat
  | .npArr pts => .ok pts.length
  | .pyList pts => .ok pts.length
  | .np0d => .error .typeError

/-- `self.path[-2]` (line 631): Python negative indexing. -/
def pathNegGet2 : PathVal → Option Point
  | .npArr pts => if 2 ≤ pts.length then pts.get? (pts.length - 2) else none
  | .pyList pts => if 2 ≤ pts.length then pts.get? (pts.length - 2) else none
  | .np0d => none

/-- `del self.path[-1]` (line 637).  Numpy arrays do not support element
deletion: `del` on an ndarray element raises
`ValueError: cannot delete array elements`.  Only a plain Python list would
actually drop its last element. -/
def delLast : PathVal → Except PyErr PathVal
  | .npArr _ => .error .valueError
  | .np0d => .error .valueError
  | .pyList pts => .ok (.pyList pts.dropLast)

/-- `np.array(rrt.planning(...))` (line 552). -/
def np_array : Option (List Point) → PathVal
  | some pts => .npArr pts
  | none => .np0d

/-- `[zs[i], zs[j]]`: the zone indexing performed before calling
`get_path_orientation` (lines 600, 655, 665). -/
def zpair (zs : List Zone) (i j : Nat) : Option (Zone × Zone) :=
  match zs.get? i, zs.get? j with
  | some a, some b => some (a, b)
  | _, _ => none

/-- The oracle inputs of one `travel_mode` tick: the payload of the map
message and the values returned by the `map_utils` / `controller_utils` /
RRT* collaborators at each call site. -/
structure TravelExt where
  map_index : Int                 -- int(map_message.index)
  robot_pos : Point               -- map_utils.pos_to_gridpos(self.x, self.y)
  contours_found : Bool           -- whether get_bounding_rect succeeded (504-508)
  area : ℚ                        -- area returned by get_bounding_rect
  initial_zones : List Zone       -- map_utils.get_initial_zones(...)
  new_zones : List Zone           -- map_utils.get_zones_from_previous(...)
  are_valid : Bool                -- map_utils.are_new_zones_valid(new, old)
  targets : List Point            -- map_utils.get_targets_from_zones(...)
  rrt_path : Option (List Point)  -- rrt.planning(animation = True)
  dist : ℚ                        -- get_distance(self.robot_pos, self.goal)
  line_angle_diff : ℚ             -- angle_diff for the TRAVEL_MODE_END rotation (601)
  release_angle : ℚ               -- angle_diff in start_bottle_release_mode (656)
  kick_angle : ℚ                  -- angle_diff in start_kick_ass_mode (666)
  path_orientation_diff : ℚ       -- angle_diff(get_path_orientation(path), theta) (616)
  dist_to_next_point : ℚ          -- get_distance(self.robot_pos, self.path[-2]) (632)
  get_rotation_time : ℚ → ℚ

/-- `start_bottle_release_mode` (lines 651-659); indexes `self.zones[0]` and
`self.zones[3]` before the external orientation computation. -/
def start_bottle_release_mode (grt : ℚ → ℚ) (angle : ℚ) (s : Ctrl) :
    Except (PyErr × Ctrl) Ctrl :=
  let s := { s with state := .bottleRelease }
  match zpair s.zones 0 3 with
  | none => .error (.indexError, s)
  | some _ => .ok (start_rotation_timer grt angle .onBottleRelease s)

/-- `start_kick_ass_mode` (lines 661-667); indexes `self.zones[0]` and
`self.zones[2]` before the external orientation computation. -/
def start_kick_ass_mode (grt : ℚ → ℚ) (angle : ℚ) (is_going_home : Bool) (s : Ctrl) :
    Except (PyErr × Ctrl) Ctrl :=
  let s := { s with state := .kickAss }
  match (if is_going_home then zpair s.zones 0 2 else zpair s.zones 2 0) with
  | none => .error (.indexError, s)
  | some _ => .ok (start_rotation_timer grt angle .onKickAssMode s)

/-- Result of the replanning section: either fall through to path tracking
(`cont`) or return from `travel_mode` (`stop`). -/
inductive Flow
  | cont (s : Ctrl)
  | stop (s : Ctrl)
deriving DecidableEq

/-- Lines 528-554: the `if self.initial_zones_found:` block of `travel_mode`
(zone update validation and path planning). -/
def travel_update_zones (ext : TravelExt) (s : Ctrl) : Except (PyErr × Ctrl) Flow :=
  if s.initial_zones_found then
    if ext.are_valid then
      let s := { publishSlam "save_state" s with zones := ext.new_zones }
      -- d. targets and goal (lines 543-546)
      let s := { s with targets := ext.targets }
      match TARGETS_TO_VISIT.get? s.current_target_index with
      | none => .error (.indexError, s)
      | some ti =>
          match s.targets.get? ti with
          | none => .error (.indexError, s)
          | some g =>
              -- e. rrt_star path planning (lines 547-553)
              let s := { s with goal := some g,
                                path := np_array ext.rrt_path,
                                has_to_find_new_path := false }
              .ok (.cont s)
    else
      .ok (.stop (publishUart "R" { s with state := .recoverySlam }))
  else .ok (.cont s)

/-- Lines 485-554: section I (path planning) of `travel_mode`. -/
def travel_replan (ext : TravelExt) (s : Ctrl) : Except (PyErr × Ctrl) Flow :=
  if ext.map_index % CONTROLLER_TIME_CONSTANT = 0 ∨ s.has_to_find_new_path then
    -- handling timer problem (lines 489-493)
    let s :=
      if s.rotation_timer_state = .onTravelMode then
        destroy_rotation_timer { publishUart "x" s with rotation_timer_state := .off }
      else s
    -- b. bounding rectangle, with the try/except of lines 504-508
    if ¬ ext.contours_found then .ok (.stop s)
    else
      -- c. find zones (lines 518-525)
      if ¬ s.initial_zones_found ∧ AREA_THRESHOLD < ext.area then
        if (240000 : ℚ) < ext.area then .error (.runtimeError, s)
        else
          travel_update_zones ext
            { s with zones := ext.initial_zones, initial_zones_found := true }
      else travel_update_zones ext s
  else .ok (.cont s)

/-- Lines 575-638: section II (path tracking) of `travel_mode`. -/
def travel_track (ext : TravelExt) (s : Ctrl) : Except (PyErr × Ctrl) Ctrl :=
  match pathLen s.path with
  | .error e => .error (e, s)
  | .ok n =>
    if n = 0 ∨ s.goal = none then .ok s
    else
      -- 1. state transition condition (lines 586-609)
      match TARGETS_TO_VISIT.get? s.current_target_index with
      | none => .error (.indexError, s)
      | some reached =>
        let min_dist := if reached = 0 then MIN_DIST_TO_RECYCLING else MIN_DIST_TO_GOAL
        if ext.dist < min_dist then
          let s := { s with current_target_index := s.current_target_index + 1,
                            n_random_search := 0, bottles_picked := 0,
                            is_traveling_forward := false, path := .pyList [] }
          if reached = 1 ∨ reached = 2 ∨ reached = 3 ∨ reached = 4 then
            match (if reached = 1 ∨ reached = 2 then zpair s.zones 1 0
                   else zpair s.zones 3 1) with
            | none => .error (.indexError, s)
            | some _ =>
                .ok (start_rotation_timer ext.get_rotation_time ext.line_angle_diff
                      .onTravelModeEnd s)
          else if reached = 0 then
            start_bottle_release_mode ext.get_rotation_time ext.release_angle s
          else if reached = 5 ∨ reached = 6 then
            start_kick_ass_mode ext.get_rotation_time ext.kick_angle (reached = 6) s
          else .ok s
        -- 2. else, compute motors commands (lines 612-638)
        else if s.rotation_timer_state = .onTravelMode then .ok s
        else if MIN_ANGLE_DIFF < |ext.path_orientation_diff| then
          -- rotation correction sub-state
          .ok (start_rotation_timer ext.get_rotation_time ext.path_orientation_diff
                .onTravelMode { s with is_traveling_forward := false })
        else
          -- forward sub-state
          let s := { publishUart "w" s with is_traveling_forward := true }
          match pathNegGet2 s.path with
          | none => .error (.indexError, s)
          | some _ =>
              if ext.dist_to_next_point < MIN_DIST_TO_POINT then
                match delLast s.path with
                | .error e => .error (e, s)
                | .ok p2 => .ok { s with path := p2 }
              else .ok s

/-- `travel_mode` (lines 473-638).  The debug plotting/saving block of lines
556-572 only touches debug artifacts (`binary`, `contours`, `corners`,
`saving_index`) and is omitted. -/
def travel_mode (ext : TravelExt) (c : Ctrl) : Except (PyErr × Ctrl) Ctrl :=
  let s := { c with robot_pos := some ext.robot_pos }
  if s.rotation_timer_state = .onTravelModeEnd then .ok s
  else
    match travel_replan ext s with
    | .error e => .error e
    | .ok (.stop s) => .ok s
    | .ok (.cont s) => travel_track ext s

/-- `listener_callback_map` (lines 185-187). -/
def listener_callback_map (ext : TravelExt) (s : Ctrl) : Except (PyErr × Ctrl) Ctrl :=
  if s.state = .travel then travel_mode ext s else .ok s

/-- Payload of a `robot_pos` message. -/
structure PosMsg where
  x : ℚ
  y : ℚ
  theta : ℚ
deriving DecidableEq

/-- Python float modulo with positive divisor (result in [0, 360)). -/
def thetaMod360 (t : ℚ) : ℚ := t - 360 * (⌊t / 360⌋ : ℤ)

/-- `listener_callback_position` (lines 189-195). -/
def listener_callback_position (pos : PosMsg) (s : Ctrl) : Ctrl :=
  { s with x := pos.x / 1200, y := pos.y / 1200, theta := thetaMod360 pos.theta }

/-! ## Claims -/

/-- Claim C1: for every rotation request with absolute requested angle above
39 degrees, if at rotation-timer expiry the absolute heading change between
the recorded pre-rotation heading and the current heading is below 5 degrees,
the callback publishes the forward-nudge command "W" exactly once, stashes the
currently active state in `last_state`, sets the mission state to
RecoveryRotation, and performs no purpose-tag follow-up action (counters,
flags, the detector state, the recorded request and the dwell timers are all
untouched). -/
theorem c1_failed_rotation_enters_recovery (ad : ℚ → ℚ → ℚ) (s : Ctrl)
    (h1 : 39 < |s.rotation_asked|)
    (h2 : |ad s.last_theta s.theta| < 5) :
    (rotation_timer_callback ad s).out = s.out ++ [Cmd.uart "W"] ∧
    (rotation_timer_callback ad s).state = .recoveryRotation ∧
    (rotation_timer_callback ad s).last_state = s.state ∧
    (rotation_timer_callback ad s).rotation_timer_state = s.rotation_timer_state ∧
    (rotation_timer_callback ad s).rotation_asked = s.rotation_asked ∧
    (rotation_timer_callback ad s).last_theta = s.last_theta ∧
    (rotation_timer_callback ad s).n_random_search = s.n_random_search ∧
    (rotation_timer_callback ad s).bottles_picked = s.bottles_picked ∧
    (rotation_timer_callback ad s).detectnet_state = s.detectnet_state ∧
    (rotation_timer_callback ad s).is_traveling_forward = s.is_traveling_forward ∧
    (rotation_timer_callback ad s).has_to_find_new_path = s.has_to_find_new_path ∧
    (rotation_timer_callback ad s).liveDet = s.liveDet := by
  simp [rotation_timer_callback, destroy_rotation_timer, publishUart, h1, h2]

/-- Witness for C1 at a concrete input: requested angle 50, heading change
`ad 0 0 = 0`. -/
theorem c1_witness :
    (rotation_timer_callback (fun a b => b - a) { ctrl0 with rotation_asked := 50 }).out
        = ctrl0.out ++ [Cmd.uart "W"] ∧
    (rotation_timer_callback (fun a b => b - a) { ctrl0 with rotation_asked := 50 }).state
        = .recoveryRotation := by
  have h := c1_failed_rotation_enters_recovery (fun a b => b - a)
    { ctrl0 with rotation_asked := 50 } (by norm_num) (by norm_num [ctrl0])
  exact ⟨h.1, h.2.1⟩

/-- Claim C7 counterexample: at a concrete input whose REQUEST tag is the
wait pseudo-rotation kind (`onNoRotation`) but whose previous timer tag is
`off`, the claim as stated is false: a directional turn command IS published
and the scheduled period is the collaborator mapping of the angle, not the
angle itself (here `grt = fun q => q + 1`, angle 2: period 3, not 2). -/
theorem c7_counterexample :
    ¬ ((start_rotation_timer (fun q => q + 1) 2 .onNoRotation ctrl0).out = ctrl0.out ∧
       (start_rotation_timer (fun q => q + 1) 2 .onNoRotation ctrl0).rotation_timer_period
         = 2) := by
  intro h
  have := h.1
  simp [start_rotation_timer, ctrl0, destroy_rotation_timer, create_rotation_timer,
    publishUart] at this

/-- Claim C7 amended: the branch of the rotation protocol is selected by the
purpose tag of the PREVIOUS rotation request (the `rotation_timer_state` in
effect when the new request is issued), not by the tag of the new request:
if that previous tag is the wait pseudo-rotation kind, no directional turn
command is published and the scheduled timer period equals the angle argument
interpreted as seconds; otherwise exactly one directional turn command is
published, "d" when the angle is strictly positive and "a" otherwise
(including angle 0), with timer period given by the collaborator mapping of
the angle magnitude. -/
theorem c7_turn_command_selected_by_previous_tag (grt : ℚ → ℚ) (a : ℚ)
    (tag : TimerState) (s : Ctrl) :
    (s.rotation_timer_state = .onNoRotation →
      (start_rotation_timer grt a tag s).out = s.out ∧
      (start_rotation_timer grt a tag s).rotation_timer_period = a) ∧
    (s.rotation_timer_state ≠ .onNoRotation →
      (start_rotation_timer grt a tag s).out
          = s.out ++ [Cmd.uart (if 0 < a then "d" else "a")] ∧
      (start_rotation_timer grt a tag s).rotation_timer_period = grt |a|) := by
  constructor
  · intro h
    simp [start_rotation_timer, h, destroy_rotation_timer, create_rotation_timer,
      publishUart]
  · intro h
    by_cases hoff : s.rotation_timer_state = .off
    · simp [start_rotation_timer, hoff, destroy_rotation_timer, create_rotation_timer,
        publishUart]
    · simp [start_rotation_timer, h, hoff, destroy_rotation_timer, create_rotation_timer,
        publishUart]

/-- Witness for the amended C7, instantiating both branches: previous tag
`onNoRotation` (period = angle, no turn command) and previous tag `off`
(one turn command "d", period = `grt 2 = 3`). -/
theorem c7_witness :
    ((start_rotation_timer (fun q => q + 1) 2 .onTravelMode
        { ctrl0 with rotation_timer_state := .onNoRotation }).out
      = ({ ctrl0 with rotation_timer_state := .onNoRotation } : Ctrl).out ∧
     (start_rotation_timer (fun q => q + 1) 2 .onTravelMode
        { ctrl0 with rotation_timer_state := .onNoRotation }).rotation_timer_period = 2) ∧
    ((start_rotation_timer (fun q => q + 1) 2 .onTravelMode ctrl0).out
      = ctrl0.out ++ [Cmd.uart (if (0:ℚ) < 2 then "d" else "a")] ∧
     (start_rotation_timer (fun q => q + 1) 2 .onTravelMode ctrl0).rotation_timer_period
      = (fun q : ℚ => q + 1) |(2:ℚ)|) := by
  exact ⟨(c7_turn_command_selected_by_previous_tag (fun q => q + 1) 2 .onTravelMode
            { ctrl0 with rotation_timer_state := .onNoRotation }).1 rfl,
         (c7_turn_command_selected_by_previous_tag (fun q => q + 1) 2 .onTravelMode
            ctrl0).2 (by simp [ctrl0])⟩

/-- The single-rotation-timer invariant maintained by the controller: when the
purpose tag is `off` no rotation timer is live, and at most one rotation timer
is ever live, namely the one whose handle is stored in `rotation_timer`. -/
def rot_timer_inv (s : Ctrl) : Prop :=
  (s.rotation_timer_state = .off → s.liveRot = []) ∧
  (s.liveRot = [] ∨ ∃ i d, s.rotation_timer = some i ∧ s.liveRot = [(i, d)])

/-- After `start_rotation_timer`, exactly the freshly created timer is live
and the request record holds the arguments of this call. -/
theorem start_rotation_timer_single (grt : ℚ → ℚ) (a : ℚ) (tag : TimerState)
    (s : Ctrl) (hi : rot_timer_inv s) :
    ∃ d, (start_rotation_timer grt a tag s).liveRot = [(s.nextTimerId, d)] ∧
      (start_rotation_timer grt a tag s).rotation_timer = some s.nextTimerId ∧
      (start_rotation_timer grt a tag s).nextTimerId = s.nextTimerId + 1 ∧
      (start_rotation_timer grt a tag s).rotation_timer_state = tag ∧
      (start_rotation_timer grt a tag s).rotation_asked = a ∧
      (start_rotation_timer grt a tag s).last_theta = s.theta ∧
      (start_rotation_timer grt a tag s).theta = s.theta := by
  by_cases h : s.rotation_timer_state = .off
  · exact ⟨grt |a|, by simp [start_rotation_timer, create_rotation_timer, publishUart,
      h, hi.1 h]⟩
  · rcases hi.2 with h2 | ⟨i, d0, hrt, hlr⟩
    · by_cases h5 : s.rotation_timer_state = .onNoRotation
      · exact ⟨a, by simp [start_rotation_timer, destroy_rotation_timer,
          create_rotation_timer, h, h5, h2]⟩
      · exact ⟨grt |a|, by simp [start_rotation_timer, destroy_rotation_timer,
          create_rotation_timer, publishUart, h, h5, h2]⟩
    · by_cases h5 : s.rotation_timer_state = .onNoRotation
      · exact ⟨a, by simp [start_rotation_timer, destroy_rotation_timer,
          create_rotation_timer, h, h5, hlr, hrt]⟩
      · exact ⟨grt |a|, by simp [start_rotation_timer, destroy_rotation_timer,
          create_rotation_timer, publishUart, h, h5, hlr, hrt]⟩

theorem start_rotation_timer_single_witness :
    ∃ d, (start_rotation_timer (fun q => q) 2 .onTravelMode ctrl0).liveRot
        = [(ctrl0.nextTimerId, d)] ∧
      (start_rotation_timer (fun q => q) 2 .onTravelMode ctrl0).rotation_timer
        = some ctrl0.nextTimerId ∧
      (start_rotation_timer (fun q => q) 2 .onTravelMode ctrl0).nextTimerId
        = ctrl0.nextTimerId + 1 ∧
      (start_rotation_timer (fun q => q) 2 .onTravelMode ctrl0).rotation_timer_state
        = .onTravelMode ∧
      (start_rotation_timer (fun q => q) 2 .onTravelMode ctrl0).rotation_asked = 2 ∧
      (start_rotation_timer (fun q => q) 2 .onTravelMode ctrl0).last_theta = ctrl0.theta ∧
      (start_rotation_timer (fun q => q) 2 .onTravelMode ctrl0).theta = ctrl0.theta :=
  start_rotation_timer_single (fun q => q) 2 .onTravelMode ctrl0
    (by constructor <;> simp [ctrl0])

/-- Claim C8: starting a new rotation request first cancels any outstanding
rotation timer, so the single-outstanding-timer invariant is preserved; and
issuing the same rotation request twice in a row leaves exactly one live
rotation timer and exactly one recorded RotationRequest, whose stored
pre-rotation heading, requested angle and purpose tag are those of the second
request. -/
theorem c8_rotation_timer_idempotence (grt : ℚ → ℚ) (a : ℚ) (tag : TimerState)
    (s : Ctrl) (ht : tag ≠ .off) (hi : rot_timer_inv s) :
    rot_timer_inv (start_rotation_timer grt a tag s) ∧
    (start_rotation_timer grt a tag (start_rotation_timer grt a tag s)).liveRot.length
        = 1 ∧
    (∃ i d, (start_rotation_timer grt a tag
          (start_rotation_timer grt a tag s)).rotation_timer = some i ∧
        (start_rotation_timer grt a tag
          (start_rotation_timer grt a tag s)).liveRot = [(i, d)]) ∧
    (start_rotation_timer grt a tag
        (start_rotation_timer grt a tag s)).rotation_asked = a ∧
    (start_rotation_timer grt a tag
        (start_rotation_timer grt a tag s)).rotation_timer_state = tag ∧
    (start_rotation_timer grt a tag
        (start_rotation_timer grt a tag s)).last_theta = s.theta := by
  obtain ⟨d1, hl1, hrt1, hnx1, hts1, hra1, hlt1, hth1⟩ :=
    start_rotation_timer_single grt a tag s hi
  have hi1 : rot_timer_inv (start_rotation_timer grt a tag s) := by
    constructor
    · intro hoff
      exact absurd (hts1 ▸ hoff) ht
    · exact Or.inr ⟨s.nextTimerId, d1, hrt1, hl1⟩
  obtain ⟨d2, hl2, hrt2, hnx2, hts2, hra2, hlt2, hth2⟩ :=
    start_rotation_timer_single grt a tag (start_rotation_timer grt a tag s) hi1
  refine ⟨hi1, ?_, ⟨_, d2, hrt2, hl2⟩, hra2, hts2, ?_⟩
  · rw [hl2]
    rfl
  · rw [hlt2, hth1]

/-- Witness for C8 at a concrete input: the initial controller state and a
40-degree travel-mode rotation issued twice. -/
theorem c8_witness :
    rot_timer_inv (start_rotation_timer (fun q => q) 40 .onTravelMode ctrl0) ∧
    (start_rotation_timer (fun q => q) 40 .onTravelMode
      (start_rotation_timer (fun q => q) 40 .onTravelMode ctrl0)).liveRot.length = 1 ∧
    (∃ i d, (start_rotation_timer (fun q => q) 40 .onTravelMode
          (start_rotation_timer (fun q => q) 40 .onTravelMode ctrl0)).rotation_timer
            = some i ∧
        (start_rotation_timer (fun q => q) 40 .onTravelMode
          (start_rotation_timer (fun q => q) 40 .onTravelMode ctrl0)).liveRot
            = [(i, d)]) ∧
    (start_rotation_timer (fun q => q) 40 .onTravelMode
        (start_rotation_timer (fun q => q) 40 .onTravelMode ctrl0)).rotation_asked = 40 ∧
    (start_rotation_timer (fun q => q) 40 .onTravelMode
        (start_rotation_timer (fun q => q) 40 .onTravelMode ctrl0)).rotation_timer_state
          = .onTravelMode ∧
    (start_rotation_timer (fun q => q) 40 .onTravelMode
        (start_rotation_timer (fun q => q) 40 .onTravelMode ctrl0)).last_theta
          = ctrl0.theta :=
  c8_rotation_timer_idempotence (fun q => q) 40 .onTravelMode ctrl0
    (by simp) (by constructor <;> simp [ctrl0])

/-- Field bookkeeping of `start_rotation_timer`: the recorded request is the
one just issued, the mission state and heading are untouched, and the turn
command is published except when the previous tag was the wait kind. -/
theorem srt_fields (grt : ℚ → ℚ) (a : ℚ) (tag : TimerState) (s : Ctrl) :
    (start_rotation_timer grt a tag s).rotation_asked = a ∧
    (start_rotation_timer grt a tag s).rotation_timer_state = tag ∧
    (start_rotation_timer grt a tag s).last_theta = s.theta ∧
    (start_rotation_timer grt a tag s).theta = s.theta ∧
    (start_rotation_timer grt a tag s).state = s.state ∧
    (start_rotation_timer grt a tag s).last_state = s.last_state ∧
    (start_rotation_timer grt a tag s).rotation_index = s.rotation_index + 1 ∧
    (start_rotation_timer grt a tag s).out
      = s.out ++ (if s.rotation_timer_state = .onNoRotation then []
                  else [Cmd.uart (if 0 < a then "d" else "a")]) := by
  by_cases h : s.rotation_timer_state = .off
  · simp [start_rotation_timer, create_rotation_timer, publishUart,
      destroy_rotation_timer, h]
  · by_cases h5 : s.rotation_timer_state = .onNoRotation <;>
      simp [start_rotation_timer, create_rotation_timer, publishUart,
        destroy_rotation_timer, h, h5]

theorem srt_fields_witness :
    (start_rotation_timer (fun q => q) 7 .onTravelMode ctrl0).rotation_asked = 7 ∧
    (start_rotation_timer (fun q => q) 7 .onTravelMode ctrl0).rotation_timer_state
      = .onTravelMode ∧
    (start_rotation_timer (fun q => q) 7 .onTravelMode ctrl0).last_theta = ctrl0.theta ∧
    (start_rotation_timer (fun q => q) 7 .onTravelMode ctrl0).theta = ctrl0.theta ∧
    (start_rotation_timer (fun q => q) 7 .onTravelMode ctrl0).state = ctrl0.state ∧
    (start_rotation_timer (fun q => q) 7 .onTravelMode ctrl0).last_state
      = ctrl0.last_state ∧
    (start_rotation_timer (fun q => q) 7 .onTravelMode ctrl0).rotation_index
      = ctrl0.rotation_index + 1 ∧
    (start_rotation_timer (fun q => q) 7 .onTravelMode ctrl0).out
      = ctrl0.out ++ (if ctrl0.rotation_timer_state = .onNoRotation then []
                      else [Cmd.uart (if (0:ℚ) < 7 then "d" else "a")]) :=
  srt_fields (fun q => q) 7 .onTravelMode ctrl0

/-- Claim C4: in state RecoveryRotation, on success status (code 1) the
machine restores the state that was active when the rotation verification
failed and re-issues the original rotation request with exactly the angle and
purpose tag recorded when the failed rotation was started.  Stated over the
full protocol run: a rotation of angle `a` and tag `tag` is started from
state `s0`, its verification fails at timer expiry (magnitude above 39, heading
change below 5), then the success status arrives. -/
theorem c4_recovery_rotation_reissues_original (grt : ℚ → ℚ) (ad : ℚ → ℚ → ℚ)
    (a : ℚ) (tag : TimerState) (s0 s1 s2 : Ctrl)
    (hs1 : s1 = start_rotation_timer grt a tag s0)
    (hs2 : s2 = rotation_timer_callback ad s1)
    (h1 : 39 < |a|)
    (h2 : |ad s0.theta s0.theta| < 5) :
    ∃ s3, listener_arduino_status grt 1 s2 = .ok s3 ∧
      s3.state = s0.state ∧
      s3.rotation_asked = a ∧
      s3.rotation_timer_state = tag ∧
      s3.rotation_index = s2.rotation_index + 1 := by
  obtain ⟨f1, f2, f3, f4, f5, f6, f7, f8⟩ := srt_fields grt a tag s0
  rw [← hs1] at f1 f3 f4 f5
  have hst : s2.state = MState.recoveryRotation ∧ s2.rotation_asked = a ∧
      s2.rotation_timer_state = tag ∧ s2.last_state = s0.state := by
    rw [hs2]
    constructor
    · simp [rotation_timer_callback, destroy_rotation_timer, publishUart,
        f1, f3, f4, h1, h2]
    constructor
    · simp [rotation_timer_callback, destroy_rotation_timer, publishUart,
        f1, f3, f4, h1, h2]
    constructor
    · rw [← hs1] at f2
      simp [rotation_timer_callback, destroy_rotation_timer, publishUart,
        f1, f2, f3, f4, h1, h2]
    · simp [rotation_timer_callback, destroy_rotation_timer, publishUart,
        f1, f3, f4, f5, h1, h2]
  obtain ⟨g1, g2, g3, g4, g5, g6, g7, g8⟩ :=
    srt_fields grt s2.rotation_asked s2.rotation_timer_state
      { s2 with state := s2.last_state }
  refine ⟨start_rotation_timer grt s2.rotation_asked s2.rotation_timer_state
      { s2 with state := s2.last_state }, ?_, ?_, ?_, ?_, ?_⟩
  · simp [listener_arduino_status, hst.1]
  · rw [g5]
    simp [hst.2.2.2]
  · rw [g1, hst.2.1]
  · rw [g2, hst.2.2.1]
  · rw [g7]

/-- Witness for C4: a 50-degree travel-mode rotation from the initial state,
failing verification with `ad = fun a b => b - a` (heading unchanged). -/
theorem c4_witness :
    ∃ s3, listener_arduino_status (fun q => q) 1
        (rotation_timer_callback (fun a b => b - a)
          (start_rotation_timer (fun q => q) 50 .onTravelMode ctrl0)) = .ok s3 ∧
      s3.state = ctrl0.state ∧
      s3.rotation_asked = 50 ∧
      s3.rotation_timer_state = .onTravelMode ∧
      s3.rotation_index = (rotation_timer_callback (fun a b => b - a)
          (start_rotation_timer (fun q => q) 50 .onTravelMode ctrl0)).rotation_index
        + 1 :=
  c4_recovery_rotation_reissues_original (fun q => q) (fun a b => b - a) 50
    .onTravelMode ctrl0 _ _ rfl rfl (by norm_num) (by norm_num)

/-- Claim C5: on every entry to RandomSearch the search-attempt counter is
incremented by one; if it then equals N_RANDOM_SEARCH_MAX, or bottlesPicked
equals MAX_BOTTLE_PICKED, the detector is disabled and the machine goes to
Travel without scheduling a detection-dwell timer and without the
reduced-speed command "xm2"; otherwise a dwell starts (reduced speed, detector
on, one new dwell timer). -/
theorem c5_random_search_entry_quota (s : Ctrl) :
    (start_random_search_detection s).n_random_search = s.n_random_search + 1 ∧
    (s.n_random_search + 1 = N_RANDOM_SEARCH_MAX ∨ s.bottles_picked = MAX_BOTTLE_PICKED →
      (start_random_search_detection s).state = .travel ∧
      (start_random_search_detection s).detectnet_state = .OFF ∧
      (start_random_search_detection s).liveDet = s.liveDet ∧
      (start_random_search_detection s).out
        = s.out ++ [Cmd.cam "destroy", Cmd.uart "m1"]) ∧
    (¬(s.n_random_search + 1 = N_RANDOM_SEARCH_MAX ∨ s.bottles_picked = MAX_BOTTLE_PICKED) →
      (start_random_search_detection s).state = .randomSearch ∧
      (start_random_search_detection s).detectnet_state = .ON ∧
      (start_random_search_detection s).liveDet
        = s.liveDet ++ [(s.nextTimerId, TIME_FOR_VISION_DETECTION)] ∧
      (start_random_search_detection s).out
        = s.out ++ [Cmd.uart "xm2", Cmd.cam "create"]) := by
  by_cases h : s.n_random_search + 1 = N_RANDOM_SEARCH_MAX ∨
      s.bottles_picked = MAX_BOTTLE_PICKED
  · refine ⟨?_, fun _ => ?_, fun hn => absurd h hn⟩ <;>
      simp [start_random_search_detection, set_detectnet_state, start_travel_mode,
        publishUart, publishCam, create_detectnet_timer, h]
  · refine ⟨?_, fun hp => absurd hp h, fun _ => ?_⟩ <;>
      simp [start_random_search_detection, set_detectnet_state, start_travel_mode,
        publishUart, publishCam, create_detectnet_timer, h]

/-- Witness for C5, instantiating the bottle-quota stop (bottlesPicked = 5),
the search-quota stop (counter reaching 11) and the dwell branch. -/
theorem c5_witness :
    ((start_random_search_detection { ctrl0 with bottles_picked := 5 }).state
        = .travel ∧
     (start_random_search_detection { ctrl0 with bottles_picked := 5 }).detectnet_state
        = .OFF ∧
     (start_random_search_detection { ctrl0 with bottles_picked := 5 }).liveDet
        = ({ ctrl0 with bottles_picked := 5 } : Ctrl).liveDet ∧
     (start_random_search_detection { ctrl0 with bottles_picked := 5 }).out
        = ({ ctrl0 with bottles_picked := 5 } : Ctrl).out
            ++ [Cmd.cam "destroy", Cmd.uart "m1"]) ∧
    ((start_random_search_detection { ctrl0 with n_random_search := 10 }).state
        = .travel ∧
     (start_random_search_detection { ctrl0 with n_random_search := 10 }).detectnet_state
        = .OFF ∧
     (start_random_search_detection { ctrl0 with n_random_search := 10 }).liveDet
        = ({ ctrl0 with n_random_search := 10 } : Ctrl).liveDet ∧
     (start_random_search_detection { ctrl0 with n_random_search := 10 }).out
        = ({ ctrl0 with n_random_search := 10 } : Ctrl).out
            ++ [Cmd.cam "destroy", Cmd.uart "m1"]) ∧
    ((start_random_search_detection ctrl0).state = .randomSearch ∧
     (start_random_search_detection ctrl0).detectnet_state = .ON ∧
     (start_random_search_detection ctrl0).liveDet
        = ctrl0.liveDet ++ [(ctrl0.nextTimerId, TIME_FOR_VISION_DETECTION)] ∧
     (start_random_search_detection ctrl0).out
        = ctrl0.out ++ [Cmd.uart "xm2", Cmd.cam "create"]) :=
  ⟨(c5_random_search_entry_quota { ctrl0 with bottles_picked := 5 }).2.1
      (Or.inr (by simp [ctrl0, MAX_BOTTLE_PICKED])),
   (c5_random_search_entry_quota { ctrl0 with n_random_search := 10 }).2.1
      (Or.inl (by simp [ctrl0, N_RANDOM_SEARCH_MAX])),
   (c5_random_search_entry_quota ctrl0).2.2
      (by simp [ctrl0, N_RANDOM_SEARCH_MAX, MAX_BOTTLE_PICKED])⟩

/-- The (state, status-code) pairs that have a rule in
`listener_arduino_status` (controller1.py lines 228-308). -/
def status_in_table : MState → Int → Prop
  | .initialRotation, st => st = 1
  | .bottleReaching, st => st = 0 ∨ st = 1
  | .bottlePicking, st => st = 0 ∨ st = 1
  | .bottleRelease, st => st = 1
  | .recoverySlam, st => st = 1
  | .recoveryRotation, st => st = 1
  | .kickAss, st => st = 1 ∨ st = 3 ∨ st = 4
  | .travel, _ => False
  | .randomSearch, _ => False

/-- Claim C6: a controller-status event whose (state, status-code) pair has no
rule in the transition table leaves the mission state and all mission memory
unchanged and publishes no command (the handler returns the state untouched
and never raises). -/
theorem c6_unhandled_status_is_noop (grt : ℚ → ℚ) (status : Int) (s : Ctrl)
    (h : ¬ status_in_table s.state status) :
    listener_arduino_status grt status s = .ok s := by
  cases hstate : s.state <;> rw [hstate] at h <;>
    simp only [status_in_table] at h
  case initialRotation => simp [listener_arduino_status, hstate, h]
  case travel => simp [listener_arduino_status, hstate]
  case randomSearch => simp [listener_arduino_status, hstate]
  case bottlePicking =>
    rw [not_or] at h
    simp [listener_arduino_status, hstate, h.1, h.2]
  case bottleRelease => simp [listener_arduino_status, hstate, h]
  case bottleReaching =>
    rw [not_or] at h
    simp [listener_arduino_status, hstate, h.1, h.2]
  case kickAss =>
    rw [not_or, not_or] at h
    simp [listener_arduino_status, hstate, h.1, h.2.1, h.2.2]
  case recoverySlam => simp [listener_arduino_status, hstate, h]
  case recoveryRotation => simp [listener_arduino_status, hstate, h]

/-- Witness for C6: status 2 in Travel is not in the table and is a no-op. -/
theorem c6_witness :
    listener_arduino_status (fun q => q) 2 { ctrl0 with state := .travel }
      = .ok { ctrl0 with state := .travel } :=
  c6_unhandled_status_is_noop (fun q => q) 2 { ctrl0 with state := .travel }
    (by simp [ctrl0, status_in_table])

/-- Concrete lidar input reporting an obstacle at every threshold. -/
def c2ext : LidarExt :=
  { obstacle_low15 := true, obstacle_len350 := true, obstacle_len700 := true,
    get_rotation_time := fun q => q }

/-- Controller in BottleReaching with the --travel debug argument set and no
grid position computed yet. -/
def c2s : Ctrl := { ctrl0 with state := .bottleReaching, args_travel := true }

/-- Claim C2 counterexample: a lidar event reporting a close-range forward
obstacle while in BottleReaching changes nothing at all — no stop command "x"
is published — because the `--travel` debug argument is set and
`self.robot_pos` is still `None`, so `lidar_callback` returns at line 200
before reaching the obstacle handling. -/
theorem c2_counterexample :
    c2s.state = .bottleReaching ∧ c2ext.obstacle_low15 = true ∧
    lidar_callback c2ext c2s = c2s := by
  refine ⟨rfl, rfl, ?_⟩
  simp [lidar_callback, c2ext, c2s, ctrl0]

/-- Claim C2 amended: provided the handler does not hit the `--travel` debug
early return (the flag is unset or a grid position exists), every lidar event
that reports a forward obstacle publishes the stop command "x" first and then
applies the state-specific behavior: BottleReaching starts a 40-degree
delta-rotation request; Travel while moving forward marks the path stale;
BottleRelease while moving forward clears the forward flag and publishes "x"
then "q"; in any other state, or when the moving-forward precondition is
false, or when no obstacle is reported, the event changes nothing. -/
theorem c2_lidar_obstacle_override (ext : LidarExt) (s : Ctrl)
    (hg : ¬(s.args_travel = true ∧ s.robot_pos = none)) :
    (s.state = .bottleReaching → ext.obstacle_low15 = true →
      (lidar_callback ext s).out
        = s.out ++ [Cmd.uart "x"]
            ++ (if s.rotation_timer_state = .onNoRotation then []
                else [Cmd.uart "d"]) ∧
      (lidar_callback ext s).rotation_asked = DELTA_RANDOM_SEARCH ∧
      (lidar_callback ext s).rotation_timer_state = .onRSDeltaRotation ∧
      (lidar_callback ext s).state = s.state) ∧
    (s.state = .travel → s.is_traveling_forward = true → ext.obstacle_len350 = true →
      (lidar_callback ext s).out = s.out ++ [Cmd.uart "x"] ∧
      (lidar_callback ext s).has_to_find_new_path = true ∧
      (lidar_callback ext s).state = s.state ∧
      (lidar_callback ext s).is_traveling_forward = s.is_traveling_forward ∧
      (lidar_callback ext s).path = s.path) ∧
    (s.state = .bottleRelease → s.is_traveling_forward = true → ext.obstacle_len700 = true →
      (lidar_callback ext s).out = s.out ++ [Cmd.uart "x", Cmd.uart "q"] ∧
      (lidar_callback ext s).is_traveling_forward = false ∧
      (lidar_callback ext s).state = s.state) ∧
    (s.state = .bottleReaching → ext.obstacle_low15 = false →
      lidar_callback ext s = s) ∧
    (s.state = .travel → s.is_traveling_forward = true → ext.obstacle_len350 = false →
      lidar_callback ext s = s) ∧
    (s.state = .bottleRelease → s.is_traveling_forward = true → ext.obstacle_len700 = false →
      lidar_callback ext s = s) ∧
    (s.state ≠ .bottleReaching →
      ¬(s.state = .travel ∧ s.is_traveling_forward = true) →
      ¬(s.state = .bottleRelease ∧ s.is_traveling_forward = true) →
      lidar_callback ext s = s) := by
  refine ⟨?_, ?_, ?_, ?_, ?_, ?_, ?_⟩
  · intro hst hobs
    have hrun : lidar_callback ext s
        = start_rotation_timer ext.get_rotation_time DELTA_RANDOM_SEARCH
            .onRSDeltaRotation (publishUart "x" s) := by
      simp [lidar_callback, hg, hst, hobs]
    obtain ⟨f1, f2, f3, f4, f5, f6, f7, f8⟩ :=
      srt_fields ext.get_rotation_time DELTA_RANDOM_SEARCH .onRSDeltaRotation
        (publishUart "x" s)
    rw [hrun]
    refine ⟨?_, f1, f2, ?_⟩
    · rw [f8]
      simp [publishUart, DELTA_RANDOM_SEARCH]
    · rw [f5]
      simp [publishUart]
  · intro hst hfwd hobs
    simp [lidar_callback, hg, hst, hfwd, hobs, publishUart]
  · intro hst hfwd hobs
    have hr : s.state ≠ .bottleReaching := by rw [hst]; simp
    simp [lidar_callback, hg, hst, hfwd, hobs, hr, publishUart]
  · intro hst hobs
    simp [lidar_callback, hg, hst, hobs]
  · intro hst hfwd hobs
    simp [lidar_callback, hg, hst, hfwd, hobs]
  · intro hst hfwd hobs
    have hr : s.state ≠ .bottleReaching := by rw [hst]; simp
    simp [lidar_callback, hg, hst, hfwd, hobs, hr]
  · intro hr ht hb
    simp [lidar_callback, hg, hr, ht, hb]

/-- Witness for the amended C2: a close-range obstacle in BottleReaching
(with the debug guard inactive) and a long-range obstacle in BottleRelease
while moving forward. -/
theorem c2_witness :
    ((lidar_callback c2ext { ctrl0 with state := .bottleReaching }).out
        = ({ ctrl0 with state := .bottleReaching } : Ctrl).out ++ [Cmd.uart "x"]
            ++ (if ({ ctrl0 with state := .bottleReaching } : Ctrl).rotation_timer_state
                  = .onNoRotation then [] else [Cmd.uart "d"]) ∧
     (lidar_callback c2ext { ctrl0 with state := .bottleReaching }).rotation_asked
        = DELTA_RANDOM_SEARCH ∧
     (lidar_callback c2ext { ctrl0 with state := .bottleReaching }).rotation_timer_state
        = .onRSDeltaRotation ∧
     (lidar_callback c2ext { ctrl0 with state := .bottleReaching }).state
        = ({ ctrl0 with state := .bottleReaching } : Ctrl).state) ∧
    ((lidar_callback c2ext
        { ctrl0 with state := .bottleRelease, is_traveling_forward := true }).out
        = ({ ctrl0 with state := .bottleRelease, is_traveling_forward := true } : Ctrl).out
            ++ [Cmd.uart "x", Cmd.uart "q"] ∧
     (lidar_callback c2ext
        { ctrl0 with state := .bottleRelease,
                     is_traveling_forward := true }).is_traveling_forward = false ∧
     (lidar_callback c2ext
        { ctrl0 with state := .bottleRelease, is_traveling_forward := true }).state
        = ({ ctrl0 with state := .bottleRelease,
                        is_traveling_forward := true } : Ctrl).state) :=
  ⟨(c2_lidar_obstacle_override c2ext { ctrl0 with state := .bottleReaching }
      (by simp [ctrl0])).1 rfl rfl,
   (c2_lidar_obstacle_override c2ext
      { ctrl0 with state := .bottleRelease, is_traveling_forward := true }
      (by simp [ctrl0])).2.2.1 rfl rfl rfl⟩

/-- Claim C3: an invalid incremental zone update during a Travel replanning
tick leaves the stored Zones completely unchanged, sets the mission state to
RecoverySlam and publishes the recover-request "R"; from RecoverySlam, only a
success status (code 1) returns the machine to Travel, after publishing the
recover-state signal to the localization subsystem. -/
theorem c3_invalid_zone_update_recovery :
    (∀ (ext : TravelExt) (s : Ctrl),
      s.initial_zones_found = true →
      s.rotation_timer_state ≠ .onTravelModeEnd →
      (ext.map_index % CONTROLLER_TIME_CONSTANT = 0 ∨ s.has_to_find_new_path = true) →
      ext.contours_found = true →
      ext.are_valid = false →
      ∃ s2, travel_mode ext s = .ok s2 ∧ s2.zones = s.zones ∧
        s2.state = .recoverySlam ∧
        s2.out = s.out ++ (if s.rotation_timer_state = .onTravelMode
            then [Cmd.uart "x"] else []) ++ [Cmd.uart "R"]) ∧
    (∀ (grt : ℚ → ℚ) (s : Ctrl), s.state = .recoverySlam →
      (∃ s2, listener_arduino_status grt 1 s = .ok s2 ∧ s2.state = .travel ∧
        s2.zones = s.zones ∧
        s2.out = s.out ++ [Cmd.slam_ctrl "recover_state", Cmd.uart "m1"]) ∧
      ∀ st : Int, st ≠ 1 → listener_arduino_status grt st s = .ok s) := by
  constructor
  · intro ext s hz htm htr hc hv
    by_cases hw : s.rotation_timer_state = .onTravelMode
    · refine ⟨publishUart "R"
        { destroy_rotation_timer { publishUart "x"
            { s with robot_pos := some ext.robot_pos }
            with rotation_timer_state := .off }
          with state := .recoverySlam }, ?_, ?_, ?_, ?_⟩
      · rcases htr with htr | htr <;>
          simp [travel_mode, travel_replan, travel_update_zones, hz, htm, htr, hc,
            hv, hw, publishUart, destroy_rotation_timer]
      · simp [destroy_rotation_timer, publishUart]
      · simp [destroy_rotation_timer, publishUart]
      · simp [destroy_rotation_timer, publishUart, hw]
    · refine ⟨publishUart "R"
        { { s with robot_pos := some ext.robot_pos } with state := .recoverySlam },
          ?_, ?_, ?_, ?_⟩
      · rcases htr with htr | htr <;>
          simp [travel_mode, travel_replan, travel_update_zones, hz, htm, htr, hc,
            hv, hw, publishUart]
      · simp [publishUart]
      · simp [publishUart]
      · simp [publishUart, hw]
  · intro grt s hs
    constructor
    · exact ⟨start_travel_mode (publishSlam "recover_state" s),
        by simp [listener_arduino_status, hs],
        by simp [start_travel_mode, publishSlam, publishUart],
        by simp [start_travel_mode, publishSlam, publishUart],
        by simp [start_travel_mode, publishSlam, publishUart]⟩
    · intro st hst
      simp [listener_arduino_status, hs, hst]

/-- Concrete travel tick whose zone update fails validation. -/
def c3ext : TravelExt :=
  { map_index := 0, robot_pos := (0, 0), contours_found := true, area := 0,
    initial_zones := [], new_zones := [[(1, 1)]], are_valid := false,
    targets := [], rrt_path := none, dist := 0, line_angle_diff := 0,
    release_angle := 0, kick_angle := 0, path_orientation_diff := 0,
    dist_to_next_point := 0, get_rotation_time := fun q => q }

/-- Controller travelling with zones already found. -/
def c3s : Ctrl :=
  { ctrl0 with state := .travel, initial_zones_found := true, zones := [[(2, 2)]] }

/-- Witness for C3: the invalid update at `c3ext`/`c3s`, and the RecoverySlam
status handling at a concrete state. -/
theorem c3_witness :
    (∃ s2, travel_mode c3ext c3s = .ok s2 ∧ s2.zones = c3s.zones ∧
      s2.state = .recoverySlam ∧
      s2.out = c3s.out ++ (if c3s.rotation_timer_state = .onTravelMode
          then [Cmd.uart "x"] else []) ++ [Cmd.uart "R"]) ∧
    (∃ s2, listener_arduino_status (fun q => q) 1 { ctrl0 with state := .recoverySlam }
        = .ok s2 ∧ s2.state = .travel ∧
      s2.zones = ({ ctrl0 with state := .recoverySlam } : Ctrl).zones ∧
      s2.out = ({ ctrl0 with state := .recoverySlam } : Ctrl).out
          ++ [Cmd.slam_ctrl "recover_state", Cmd.uart "m1"]) ∧
    listener_arduino_status (fun q => q) 0 { ctrl0 with state := .recoverySlam }
      = .ok { ctrl0 with state := .recoverySlam } :=
  ⟨c3_invalid_zone_update_recovery.1 c3ext c3s rfl (by simp [c3s, ctrl0])
      (Or.inl (by decide)) rfl rfl,
   (c3_invalid_zone_update_recovery.2 (fun q => q)
      { ctrl0 with state := .recoverySlam } rfl).1,
   (c3_invalid_zone_update_recovery.2 (fun q => q)
      { ctrl0 with state := .recoverySlam } rfl).2 0 (by decide)⟩

/-- Claim C10: the detection-stream handler reads `msg.detections[0]` before
checking that the list is non-empty: when the detector is disabled the
message is ignored; when it is enabled a message with an empty detection list
raises IndexError (it is not silently ignored); any message with at least one
detection is handled without raising. -/
theorem c10_detectnet_reads_head_before_empty_check (grt : ℚ → ℚ) (ba : ℚ)
    (msg : DetMsg) (s : Ctrl) :
    (s.detectnet_state = .OFF →
      listener_callback_detectnet grt ba msg s = .ok s) ∧
    (s.detectnet_state = .ON → msg.detections = [] →
      listener_callback_detectnet grt ba msg s = .error (.indexError, s)) ∧
    (s.detectnet_state = .ON → msg.detections ≠ [] →
      ∃ s2, listener_callback_detectnet grt ba msg s = .ok s2) := by
  refine ⟨fun h => by simp [listener_callback_detectnet, h],
    fun h he => by simp [listener_callback_detectnet, h, he],
    fun h hne => ?_⟩
  cases hm : msg.detections with
  | nil => exact absurd hm hne
  | cons d0 rest =>
      by_cases hf :
          (decide (d0.source_img.height < d0.source_img.width) ≠ s.is_flipped)
      · exact ⟨s, by simp [listener_callback_detectnet, h, hm, hf]⟩
      · refine ⟨flip_camera_and_reset_detectnet_timer grt ba
            { s with detections :=
                s.detections ++ (msg.detections.map (fun d => (d.cx, d.cy, d.sx, d.sy, s.is_flipped))) },
          ?_⟩
        simp [listener_callback_detectnet, h, hm, hf]

/-- Witness for C10: with the detector enabled, an empty detection list
raises IndexError; with it disabled, the same message is ignored. -/
theorem c10_witness :
    listener_callback_detectnet (fun q => q) 0 ⟨[]⟩
        { ctrl0 with detectnet_state := .ON }
      = .error (.indexError, { ctrl0 with detectnet_state := .ON }) ∧
    listener_callback_detectnet (fun q => q) 0 ⟨[]⟩ ctrl0 = .ok ctrl0 :=
  ⟨(c10_detectnet_reads_head_before_empty_check (fun q => q) 0 ⟨[]⟩
      { ctrl0 with detectnet_state := .ON }).2.1 rfl rfl,
   (c10_detectnet_reads_head_before_empty_check (fun q => q) 0 ⟨[]⟩ ctrl0).1 rfl⟩

/-- A travel tick outside the replanning cadence, with the robot close to the
next waypoint (distance 1/10 below MIN_DIST_TO_POINT) and heading aligned. -/
def c9ext : TravelExt :=
  { map_index := 1, robot_pos := (0, 0), contours_found := true, area := 0,
    initial_zones := [], new_zones := [], are_valid := true, targets := [],
    rrt_path := some [(0, 0), (1, 1)], dist := 30, line_angle_diff := 0,
    release_angle := 0, kick_angle := 0, path_orientation_diff := 0,
    dist_to_next_point := 1/10, get_rotation_time := fun q => q }

/-- Controller in Travel holding a two-waypoint path as produced by a
replanning step (a numpy array, line 552). -/
def c9s : Ctrl :=
  { ctrl0 with state := .travel, path := .npArr [(0, 0), (1, 1)],
               goal := some (5, 5) }

/-- The state at the moment of the raise: the forward command was already
published and the forward flag set. -/
def c9crash : Ctrl :=
  { c9s with robot_pos := some (0, 0), is_traveling_forward := true,
             out := [Cmd.uart "w"] }

/-- Claim C9 (code bug): on a planner-produced path (`np.array`, line 552),
the forward sub-state of `travel_mode` issues the forward command and then,
once the robot is within MIN_DIST_TO_POINT of the next waypoint, executes
`del self.path[-1]` (line 637) — which raises
`ValueError: cannot delete array elements`, because numpy arrays do not
support element deletion, instead of discarding the last waypoint as the
specification states.  Only a plain Python list would actually be advanced,
as the last conjunct shows. -/
theorem c9_path_advance_raises_valueerror :
    travel_mode c9ext c9s = .error (.valueError, c9crash) ∧
    c9crash.out = c9s.out ++ [Cmd.uart "w"] ∧
    c9s.path = .npArr [((0:ℚ), (0:ℚ)), (1, 1)] ∧
    c9ext.dist_to_next_point < MIN_DIST_TO_POINT ∧
    delLast (.pyList [((0:ℚ), (0:ℚ)), (1, 1)]) = .ok (.pyList [((0:ℚ), (0:ℚ))]) := by
  refine ⟨?_, ?_, rfl, by norm_num [c9ext, MIN_DIST_TO_POINT], by simp [delLast]⟩
  · norm_num [travel_mode, travel_replan, travel_track, travel_update_zones, pathLen,
      pathNegGet2, delLast, publishUart, c9ext, c9s, c9crash, ctrl0,
      CONTROLLER_TIME_CONSTANT, MIN_DIST_TO_RECYCLING, MIN_DIST_TO_GOAL,
      MIN_ANGLE_DIFF, MIN_DIST_TO_POINT, TARGETS_TO_VISIT]
    simp
  · simp [c9crash, c9s, ctrl0]

end Robottle
